import Mathlib

/-
Verification of the MuseTalk streaming orchestration core.

Shallow embedding of the session / avatar / audio-queue logic of
streaming_server.py and the resource lifecycle of musetalk_wrapper.py.
Python dicts become association lists, the asyncio event loop and the
worker threads become an explicit interleaving transition system, and
the documented semantics of asyncio.create_task (it may only be called
from the thread running the event loop and raises RuntimeError
elsewhere) become an explicit execution-context parameter.
-/

/-- Outbound events sent to a client as JSON messages by streaming_server.py.
The time.time() float timestamp of video_chunk is modelled as an abstract Nat tick. -/
inductive OutEvent
| connectionEstablished (clientId : String)
| avatarInitializationStarted (avatarId : String)
| avatarInitialized (avatarId : String)
| audioReceived
| videoChunk (videoData : String) (timestamp : Nat)
| statusEv (clientId : String) (avatarBound : Bool) (avatarId : Option String)
    (queueSize : Nat) (processing : Bool)
| errorEv (message : String)
deriving DecidableEq

/-- Tests whether an outbound event is a type:error message. -/
def OutEvent.isError : OutEvent → Bool
| .errorEv _ => true
| _ => false

/-- Python truthiness of an optional string field read with dict.get:
a missing field (None) and an empty string are both falsy. -/
def truthy : Option String → Bool
| none => false
| some s => !s.isEmpty

/-- Decoded audio or video bytes. Their content is opaque to the orchestration
logic, so a byte string is represented by its base64 source text;
base64.b64decode and b64encode are mutually inverse on valid input. -/
structure Bytes where
  b64 : String
deriving DecidableEq

/-- base64.b64decode as used on audio_data / avatar_video_data payloads. -/
def b64decode (s : String) : Bytes := ⟨s⟩

/-- base64.b64encode(...).decode('utf-8') as used on generated video bytes. -/
def b64encode (b : Bytes) : String := b.b64

/-- MuseTalkWrapper state relevant to resource lifecycle (musetalk_wrapper.py):
the temporary directory created by tempfile.mkdtemp in __init__ and removed by
cleanup, the source video path, the version tag and the prepared flag. -/
structure Wrapper where
  avatarVideoPath : String
  version : String
  tempDirExists : Bool
  avatarPrepared : Bool
deriving DecidableEq

/-- MuseTalkWrapper.cleanup (musetalk_wrapper.py lines 311-318): removes the
temporary directory if it still exists; exceptions are caught and logged, so
the call always returns and a second call finds nothing to remove. -/
def Wrapper.cleanup (w : Wrapper) : Wrapper := { w with tempDirExists := false }

/-- Per-client entry of self.clients (streaming_server.py lines 37-42):
avatar_id (None until an initialization succeeds), the audio queue and the
processing busy flag. The websocket handle is left implicit. -/
structure ClientInfo where
  avatarId : Option String
  audioQueue : List Bytes
  processing : Bool
deriving DecidableEq

/-- The two process-wide tables of MuseTalkStreamingServer: self.clients and
self.avatars, as insertion-ordered association lists (Python dicts). -/
structure ServerState where
  clients : List (String × ClientInfo)
  avatars : List (String × Wrapper)
deriving DecidableEq

/-- Python dict lookup d.get(k) / d[k] on an association list. -/
def dictGet {α : Type} : List (String × α) → String → Option α
| [], _ => none
| (k', v) :: rest, k => if k' = k then some v else dictGet rest k

/-- Python dict assignment d[k] = v: replaces in place if the key is present,
appends otherwise (Python dicts preserve insertion order). -/
def dictSet {α : Type} : List (String × α) → String → α → List (String × α)
| [], k, v => [(k, v)]
| (k', v') :: rest, k, v =>
    if k' = k then (k, v) :: rest else (k', v') :: dictSet rest k v

/-- Python del d[k] on an association list. -/
def dictDel {α : Type} : List (String × α) → String → List (String × α)
| [], _ => []
| (k', v') :: rest, k =>
    if k' = k then dictDel rest k else (k', v') :: dictDel rest k

/-- Client id generation at connection time (streaming_server.py line 36):
f"client_{int(time.time() * 1000)}" where ms is the wall clock in milliseconds. -/
def mkClientId (ms : Nat) : String := "client_" ++ Nat.repr ms

/-- register_client (streaming_server.py lines 34-51), non-I/O part: allocate
the id from the current millisecond clock, store a fresh client entry (dict
assignment: a colliding id silently overwrites the previous entry), and send
connection_established. -/
def registerClient (st : ServerState) (ms : Nat) :
    ServerState × String × List OutEvent :=
  let cid := mkClientId ms
  ({ st with clients := dictSet st.clients cid ⟨none, [], false⟩ },
   cid, [.connectionEstablished cid])

/-- Avatar id generation (streaming_server.py line 111):
f"avatar_{client_id}_{int(time.time())}" with sec the wall clock in seconds. -/
def mkAvatarId (clientId : String) (sec : Nat) : String :=
  "avatar_" ++ clientId ++ "_" ++ Nat.repr sec

/-- Outcome of the synchronous part of handle_initialize_avatar. -/
inductive InitOutcome
| rejectedMissing
| rejectedNotFound (path : String)
| started (usedVideoData : Bool) (path : String)
deriving DecidableEq

/-- handle_initialize_avatar, synchronous part (streaming_server.py lines
86-117): reads avatar_video_data and avatar_video_path with dict.get, rejects
when BOTH are falsy; when avatar_video_data is truthy it is decoded and written
to a fresh temporary file whose name overwrites avatar_video_path (so
avatar_video_data takes precedence when both are given); then os.path.exists
(modelled by fsExists, with tempPath the just-written temporary file) is
checked and the avatar_initialization_started acknowledgement is sent before
the background initialization thread starts. -/
def handleInitializeAvatar (clientId : String) (sec : Nat)
    (avatarVideoData avatarVideoPath : Option String)
    (fsExists : String → Bool) (tempPath : String) : InitOutcome × List OutEvent :=
  if truthy avatarVideoData = false ∧ truthy avatarVideoPath = false then
    (.rejectedMissing,
     [.errorEv "Either avatar_video_data or avatar_video_path must be provided"])
  else
    let path := if truthy avatarVideoData then tempPath else avatarVideoPath.getD ""
    if fsExists path = false then
      (.rejectedNotFound path, [.errorEv ("Avatar video not found: " ++ path)])
    else
      (.started (truthy avatarVideoData) path,
       [.avatarInitializationStarted (mkAvatarId clientId sec)])

/-- Success continuation of the background initialization thread
(streaming_server.py lines 131-133): stores the prepared wrapper in
self.avatars and overwrites the client's avatar_id binding. No release of a
previously bound avatar happens anywhere on this path. A client entry that
disappeared meanwhile raises KeyError in the source (swallowed by the
surrounding except); modelled by leaving clients unchanged. -/
def bindAvatarOnSuccess (st : ServerState) (clientId avatarId : String)
    (w : Wrapper) : ServerState :=
  let avs := dictSet st.avatars avatarId w
  match dictGet st.clients clientId with
  | some c =>
      { clients := dictSet st.clients clientId { c with avatarId := some avatarId },
        avatars := avs }
  | none => { st with avatars := avs }

/-- handle_audio_chunk, event-loop part (streaming_server.py lines 153-191):
validate the client and its bound avatar, require a truthy audio_data field,
decode and append to the client's queue, and when the processing flag is unset
set it and spawn a drain worker thread. Returns the new state, the events sent
to the client, and whether a worker thread was spawned. -/
def handleAudioChunk (st : ServerState) (clientId : String)
    (audioData : Option String) : ServerState × List OutEvent × Bool :=
  match dictGet st.clients clientId with
  | none => (st, [.errorEv "Client not found"], false)
  | some c =>
    match c.avatarId with
    | none => (st, [.errorEv "Avatar not initialized"], false)
    | some aid =>
      if (dictGet st.avatars aid).isNone then
        (st, [.errorEv "Avatar not initialized"], false)
      else if truthy audioData = false then
        (st, [.errorEv "No audio data provided"], false)
      else
        let c1 : ClientInfo :=
          { c with audioQueue := c.audioQueue ++ [b64decode (audioData.getD "")] }
        if c1.processing = false then
          ({ st with clients := dictSet st.clients clientId { c1 with processing := true } },
           [.audioReceived], true)
        else
          ({ st with clients := dictSet st.clients clientId c1 },
           [.audioReceived], false)

/-- handle_get_status (streaming_server.py lines 260-282). -/
def handleGetStatus (st : ServerState) (clientId : String) :
    ServerState × List OutEvent :=
  match dictGet st.clients clientId with
  | none => (st, [.errorEv "Client not found"])
  | some c =>
      (st, [.statusEv clientId c.avatarId.isSome c.avatarId
              c.audioQueue.length c.processing])

/-- An inbound websocket message after the json.loads attempt of
handle_message: either undecodable JSON, or a decoded object carrying its
'type' field and the payload fields read by the handlers. -/
inductive Inbound
| malformed
| tagged (mtype : Option String)
    (avatarVideoData avatarVideoPath version audioData : Option String)
deriving DecidableEq

/-- The message kinds present in the dispatch table of handle_message. -/
def knownKind (t : Option String) : Prop :=
  t = some "initialize_avatar" ∨ t = some "audio_chunk" ∨ t = some "get_status"

instance (t : Option String) : Decidable (knownKind t) := by
  unfold knownKind; infer_instance

/-- Holds when handle_message has no handler for the message: the JSON was
undecodable or the 'type' field is absent or not in the dispatch table. -/
def Inbound.unhandled : Inbound → Prop
| .malformed => True
| .tagged t _ _ _ _ => ¬ knownKind t

instance (m : Inbound) : Decidable m.unhandled := by
  cases m <;> (unfold Inbound.unhandled; infer_instance)

/-- Python str() of an optional string, as interpolated by the f-string in the
unknown-message-type error. -/
def pyShow : Option String → String
| none => "None"
| some s => s

/-- handle_message (streaming_server.py lines 63-84): dispatch on the decoded
'type' field; json.JSONDecodeError yields a single error event, an unknown
type yields a single error event, and every exception is caught, so the
connection's read loop always continues (the function is total and never
closes the connection). Returns the new state, the events sent back, and
whether a drain worker thread was spawned. -/
def handleMessage (st : ServerState) (clientId : String) (m : Inbound)
    (fsExists : String → Bool) (tempPath : String) (sec : Nat) :
    ServerState × List OutEvent × Bool :=
  match m with
  | .malformed => (st, [.errorEv "Invalid JSON message"], false)
  | .tagged mtype avd avp _ver aud =>
    if mtype = some "initialize_avatar" then
      let r := handleInitializeAvatar clientId sec avd avp fsExists tempPath
      (st, r.2, false)
    else if mtype = some "audio_chunk" then
      handleAudioChunk st clientId aud
    else if mtype = some "get_status" then
      let r := handleGetStatus st clientId
      (r.1, r.2, false)
    else
      (st, [.errorEv ("Unknown message type: " ++ pyShow mtype)], false)

/-- Result of cleanup_client: the new state, the events sent (always none), and
the wrapper resources on which cleanup() was invoked (their temp dirs purged). -/
structure CleanupResult where
  state : ServerState
  events : List OutEvent
  released : List Wrapper
deriving DecidableEq

/-- cleanup_client (streaming_server.py lines 300-317): when the client exists,
release its bound avatar if that avatar is registered (wrapper.cleanup() then
deletion from self.avatars) and delete the client entry. Emits no events; all
exceptions are caught and logged. When the client is unknown the call is a
no-op. -/
def cleanupClient (st : ServerState) (clientId : String) : CleanupResult :=
  match dictGet st.clients clientId with
  | none => ⟨st, [], []⟩
  | some c =>
    match c.avatarId with
    | some aid =>
      match dictGet st.avatars aid with
      | some w =>
          ⟨{ clients := dictDel st.clients clientId,
             avatars := dictDel st.avatars aid }, [], [w.cleanup]⟩
      | none => ⟨{ st with clients := dictDel st.clients clientId }, [], []⟩
    | none => ⟨{ st with clients := dictDel st.clients clientId }, [], []⟩

/-- Execution context of a piece of code: the thread running the asyncio event
loop, or a worker thread started with threading.Thread (which runs no loop). -/
inductive ExecCtx
| eventLoopThread
| workerThread
deriving DecidableEq

/-- asyncio.create_task, per its documented semantics: it may only be called
from the thread whose event loop is running; from any other thread there is no
running event loop and the call raises RuntimeError. On success the coroutine
is scheduled on the loop and the event it would send is delivered. -/
def createTask (ctx : ExecCtx) (ev : OutEvent) : Except String OutEvent :=
  match ctx with
  | .eventLoopThread => .ok ev
  | .workerThread => .error "no running event loop"

/-- process_audio_queue runs in a thread started by threading.Thread
(streaming_server.py lines 179-183); that thread runs no asyncio event loop. -/
def workerCtx : ExecCtx := .workerThread

/-- One iteration of the worker loop body of process_audio_queue
(streaming_server.py lines 200-240) after a chunk was popped: the blocking
generation ran (genOk says whether generate_video_from_audio returned a path
to an existing file), and the worker attempts to deliver the video_chunk
event (success) or the "Failed to generate video" error (failure) via
asyncio.create_task. A RuntimeError from create_task lands in the inner
except handler, whose own create_task call raises again, which propagates out
of the while loop and kills the worker. Returns the events actually scheduled
for delivery and whether the loop continues to the next chunk. -/
def workerIteration (ctx : ExecCtx) (genOk : Bool) (videoB64 : String)
    (ts : Nat) : List OutEvent × Bool :=
  let attempt :=
    if genOk then createTask ctx (.videoChunk videoB64 ts)
    else createTask ctx (.errorEv "Failed to generate video")
  match attempt with
  | .ok ev => ([ev], true)
  | .error e =>
    match createTask ctx (.errorEv ("Audio processing error: " ++ e)) with
    | .ok ev => ([ev], true)
    | .error _ => ([], false)

/-- The drain loop of process_audio_queue (streaming_server.py lines 199-241)
over the chunks currently queued, in FIFO pop order: per-chunk generation
outcome genOk, generated video bytes videoOf, delivery timestamp tsOf.
Returns the events scheduled for delivery; a dying iteration stops the loop,
leaving later chunks unprocessed. -/
def drainQueue (ctx : ExecCtx) (genOk : Bytes → Bool) (videoOf : Bytes → String)
    (tsOf : Bytes → Nat) : List Bytes → List OutEvent
| [] => []
| c :: rest =>
  let r := workerIteration ctx (genOk c) (videoOf c) (tsOf c)
  if r.2 then r.1 ++ drainQueue ctx genOk videoOf tsOf rest else r.1

/-- Phase of one drain worker thread between its shared-state accesses:
checking is the top of the while loop (about to evaluate audio_queue.empty()),
generating holds the popped chunk through the blocking generation and delivery
attempt, clearing is after the loop exit (empty check true, or an exception)
with the finally clause (processing = False) still pending. -/
inductive WP
| checking
| generating (c : Nat)
| clearing
deriving DecidableEq

/-- Tests whether a worker currently has a generate invocation in flight. -/
def WP.isGenerating : WP → Bool
| .generating _ => true
| _ => false

/-- Position of the event loop inside handle_audio_chunk: ready when no
audio-chunk handler is mid-flight, spawnCheck between the queue.put
(line 174) and the processing-flag check (line 177). The event loop is a
single thread, so at most one handler position needs tracking; worker threads
interleave freely with it. -/
inductive EP
| ready
| spawnCheck
deriving DecidableEq

/-- Interleaving state of one session's audio pipeline: the audio queue
(chunks as numeric ids), the processing busy flag, the phases of all live
drain worker threads, and the event loop's position. -/
structure SSt where
  queue : List Nat
  processing : Bool
  workers : List WP
  ep : EP
deriving DecidableEq

/-- Fresh session state: empty queue, flag unset, no workers. -/
def initSt : SSt := ⟨[], false, [], .ready⟩

/-- Small-step interleaving semantics of one session's enqueue path
(handle_audio_chunk lines 174-183) and drain workers (process_audio_queue
lines 193-246). put appends a chunk (queue.put); spawnYes / spawnNo are the
unsynchronized processing-flag check that may start a new worker thread;
pop is the while-loop nonempty check plus queue.get (sound as one step: this
worker is the only consumer); seeEmpty is the while-loop check observing an
empty queue; genDone finishes one blocking generation and loops; genAbort is
an exception escaping the loop body (for example the RuntimeError of the
delivery call); clearFlag is the finally clause clearing the busy flag as the
worker thread dies. No lock couples seeEmpty with clearFlag. -/
inductive Step : SSt → SSt → Prop
| put (s : SSt) (c : Nat) : s.ep = .ready →
    Step s { s with queue := s.queue ++ [c], ep := .spawnCheck }
| spawnYes (s : SSt) : s.ep = .spawnCheck → s.processing = false →
    Step s { s with processing := true, workers := s.workers ++ [.checking],
                    ep := .ready }
| spawnNo (s : SSt) : s.ep = .spawnCheck → s.processing = true →
    Step s { s with ep := .ready }
| pop (s : SSt) (i c : Nat) (rest : List Nat) :
    s.workers[i]? = some .checking → s.queue = c :: rest →
    Step s { s with workers := s.workers.set i (.generating c), queue := rest }
| seeEmpty (s : SSt) (i : Nat) :
    s.workers[i]? = some .checking → s.queue = [] →
    Step s { s with workers := s.workers.set i .clearing }
| genDone (s : SSt) (i c : Nat) :
    s.workers[i]? = some (.generating c) →
    Step s { s with workers := s.workers.set i .checking }
| genAbort (s : SSt) (i c : Nat) :
    s.workers[i]? = some (.generating c) →
    Step s { s with workers := s.workers.set i .clearing }
| clearFlag (s : SSt) (i : Nat) :
    s.workers[i]? = some .clearing →
    Step s { s with workers := s.workers.eraseIdx i, processing := false }

/-- States reachable from a fresh session by any interleaving. -/
inductive Reachable : SSt → Prop
| init : Reachable initSt
| step {s s' : SSt} : Reachable s → Step s s' → Reachable s'

/-- The stranded state the enqueue/clear race produces: one chunk queued,
busy flag cleared, no worker thread alive, event loop idle. -/
def strandedSt : SSt := ⟨[1], false, [], .ready⟩

/-- Numeric value of a decimal digit character; inverse of Nat.digitChar
on digits 0-9. -/
def charVal (c : Char) : Nat := c.toNat - 48

/-- Value of a most-significant-first list of decimal digit characters. -/
def decVal (l : List Char) : Nat := l.foldl (fun a c => 10 * a + charVal c) 0

/-- Millisecond timestamp recovered from a client id built by mkClientId
(drops the seven characters of the fixed leading tag). -/
def idVal (s : String) : Nat := decVal (s.data.drop 7)

/-- Sample prepared wrapper bound to a session in the concrete test states. -/
def wOld : Wrapper := ⟨"old.mp4", "v15", true, true⟩

/-- Sample prepared wrapper for a second, later initialization. -/
def wNew : Wrapper := ⟨"new.mp4", "v15", true, true⟩

/-- Concrete server state with one client whose avatar avatar_old is bound and
registered. -/
def stBound : ServerState :=
  ⟨[("client_1", ⟨some "avatar_old", [], false⟩)], [("avatar_old", wOld)]⟩

/-- Concrete server state with one connected client that never completed an
avatar initialization. -/
def stNoAvatar : ServerState := ⟨[("client_1", ⟨none, [], false⟩)], []⟩

/-- Lookup after assignment at the same key. -/
theorem dictGet_set_self {α : Type} (l : List (String × α)) (k : String) (v : α) :
    dictGet (dictSet l k v) k = some v := by
  induction l with
  | nil => simp [dictGet, dictSet]
  | cons p rest ih =>
    obtain ⟨k', v'⟩ := p
    by_cases h : k' = k
    · simp [dictGet, dictSet, h]
    · simp [dictGet, dictSet, h, ih]

/-- Lookup after assignment at a different key. -/
theorem dictGet_set_ne {α : Type} (l : List (String × α)) (k k' : String) (v : α)
    (h : k' ≠ k) : dictGet (dictSet l k v) k' = dictGet l k' := by
  induction l with
  | nil => simp [dictGet, dictSet, Ne.symm h]
  | cons p rest ih =>
    obtain ⟨ka, va⟩ := p
    by_cases hka : ka = k
    · subst hka
      simp [dictGet, dictSet, Ne.symm h]
    · by_cases hka' : ka = k'
      · subst hka'
        simp [dictGet, dictSet, hka]
      · simp [dictGet, dictSet, hka, hka', ih]

/-- Lookup after deletion of the same key. -/
theorem dictGet_del_self {α : Type} (l : List (String × α)) (k : String) :
    dictGet (dictDel l k) k = none := by
  induction l with
  | nil => rfl
  | cons p rest ih =>
    obtain ⟨k', v'⟩ := p
    by_cases h : k' = k
    · simp [dictDel, h, ih]
    · simp [dictDel, dictGet, h, ih]

/-- cleanup_client on an unknown client id is a no-op with no events and no
released resources. -/
theorem cleanupClient_not_found (st : ServerState) (cid : String)
    (h : dictGet st.clients cid = none) : cleanupClient st cid = ⟨st, [], []⟩ := by
  simp [cleanupClient, h]

/-- Nat.toDigitsCore gives the same digits under any sufficient fuel. -/
theorem toDigitsCore_fuel_eq : ∀ (f f' n : Nat) (l : List Char), n < f → n < f' →
    Nat.toDigitsCore 10 f n l = Nat.toDigitsCore 10 f' n l := by
  intro f
  induction f with
  | zero => intro f' n l h _; exact absurd h (Nat.not_lt_zero n)
  | succ f ih =>
    intro f' n l h h'
    cases f' with
    | zero => exact absurd h' (Nat.not_lt_zero n)
    | succ f' =>
      simp only [Nat.toDigitsCore]
      by_cases hz : n / 10 = 0
      · simp [hz]
      · simp only [hz, if_false]
        apply ih
        · omega
        · omega

/-- Nat.toDigitsCore only prepends to its accumulator. -/
theorem toDigitsCore_append_acc : ∀ (f n : Nat) (l : List Char),
    Nat.toDigitsCore 10 f n l = Nat.toDigitsCore 10 f n [] ++ l := by
  intro f
  induction f with
  | zero => intro n l; simp [Nat.toDigitsCore]
  | succ f ih =>
    intro n l
    simp only [Nat.toDigitsCore]
    by_cases hz : n / 10 = 0
    · simp [hz]
    · simp only [hz, if_false]
      rw [ih (n / 10) (Nat.digitChar (n % 10) :: l),
          ih (n / 10) [Nat.digitChar (n % 10)]]
      simp

/-- charVal inverts Nat.digitChar on decimal digits. -/
theorem charVal_digitChar (d : Nat) (hd : d < 10) :
    charVal (Nat.digitChar d) = d := by
  have h : ∀ x : Fin 10, charVal (Nat.digitChar x.val) = x.val := by decide
  exact h ⟨d, hd⟩

/-- decVal parses the decimal rendering of a Nat back to that Nat. -/
theorem decVal_toDigits : ∀ n : Nat, decVal (Nat.toDigits 10 n) = n := by
  intro n
  induction n using Nat.strong_induction_on with
  | _ n ih =>
    show decVal (Nat.toDigitsCore 10 (n + 1) n []) = n
    simp only [Nat.toDigitsCore]
    by_cases hz : n / 10 = 0
    · simp only [hz, if_true]
      have h10 : n < 10 := by omega
      have hmod : n % 10 = n := Nat.mod_eq_of_lt h10
      simp [decVal, hmod, charVal_digitChar n h10]
    · simp only [hz, if_false]
      have hlt : n / 10 < n := by omega
      rw [toDigitsCore_append_acc,
          toDigitsCore_fuel_eq n (n / 10 + 1) (n / 10) [] hlt (Nat.lt_succ_self _)]
      have hrec : decVal (Nat.toDigits 10 (n / 10)) = n / 10 := ih (n / 10) hlt
      unfold decVal at hrec ⊢
      unfold Nat.toDigits at hrec
      rw [List.foldl_append]
      simp only [List.foldl]
      rw [hrec, charVal_digitChar (n % 10) (Nat.mod_lt n (by omega))]
      omega

/-- idVal recovers the millisecond timestamp from a generated client id. -/
theorem idVal_mkClientId (ms : Nat) : idVal (mkClientId ms) = ms := by
  unfold idVal mkClientId
  rw [String.data_append]
  have h7 : ("client_" : String).data.length = 7 := by decide
  rw [← h7, List.drop_left]
  have hdata : (Nat.repr ms).data = Nat.toDigits 10 ms := rfl
  rw [hdata, decVal_toDigits]

/-- Core invariant of the spawn protocol: a cleared busy flag means no live
worker thread, and there is never more than one live worker thread. -/
theorem reachable_worker_inv (s : SSt) (h : Reachable s) :
    (s.processing = false → s.workers = []) ∧ s.workers.length ≤ 1 := by
  induction h with
  | init => exact ⟨fun _ => rfl, by simp [initSt]⟩
  | step hr hs ih =>
    cases hs with
    | put c hep => exact ih
    | spawnYes hep hproc =>
      have hnil := ih.1 hproc
      refine ⟨fun hfalse => by simp at hfalse, ?_⟩
      simp [hnil]
    | spawnNo hep hproc => exact ih
    | pop i c rest hget hq =>
      constructor
      · intro hp
        have hnil := ih.1 hp
        rw [hnil] at hget
        simp at hget
      · simpa using ih.2
    | seeEmpty i hget hq =>
      constructor
      · intro hp
        have hnil := ih.1 hp
        rw [hnil] at hget
        simp at hget
      · simpa using ih.2
    | genDone i c hget =>
      constructor
      · intro hp
        have hnil := ih.1 hp
        rw [hnil] at hget
        simp at hget
      · simpa using ih.2
    | genAbort i c hget =>
      constructor
      · intro hp
        have hnil := ih.1 hp
        rw [hnil] at hget
        simp at hget
      · simpa using ih.2
    | clearFlag i hget =>
      obtain ⟨hlt, -⟩ := List.getElem?_eq_some.mp hget
      have hzero := List.length_eraseIdx_of_lt hlt
      have h2 := ih.2
      constructor
      · intro hp
        show List.eraseIdx _ _ = []
        exact List.length_eq_zero.mp (by omega)
      · show (List.eraseIdx _ _).length ≤ 1
        omega

/-- Claim C1 (code_bug evaluation): the claim states that no reachable
interleaving leaves a chunk enqueued with the busy flag cleared and no worker
scheduled. The code has no lock coupling the worker's empty-queue check with
the busy-flag clear, and this theorem exhibits the resulting race: chunk 0 is
enqueued and drained; the worker observes the queue empty; chunk 1 arrives and
the enqueue path reads processing still True, so it spawns nothing; the worker
then clears the flag and dies. The final state - queue holding chunk 1, busy
flag cleared, no worker thread, event loop idle - is reachable, refuting the
no-stranded-chunk invariant. -/
theorem stranded_chunk_reachable :
    Reachable strandedSt ∧ strandedSt.queue ≠ [] ∧
      strandedSt.processing = false ∧ strandedSt.workers = [] := by
  refine ⟨?_, by simp [strandedSt], rfl, rfl⟩
  have h1 : Reachable ⟨[0], false, [], EP.spawnCheck⟩ :=
    Reachable.step Reachable.init (Step.put initSt 0 rfl)
  have h2 : Reachable ⟨[0], true, [WP.checking], EP.ready⟩ :=
    Reachable.step h1 (Step.spawnYes _ rfl rfl)
  have h3 : Reachable ⟨[], true, [WP.generating 0], EP.ready⟩ :=
    Reachable.step h2 (Step.pop _ 0 0 [] rfl rfl)
  have h4 : Reachable ⟨[], true, [WP.checking], EP.ready⟩ :=
    Reachable.step h3 (Step.genDone _ 0 0 rfl)
  have h5 : Reachable ⟨[], true, [WP.clearing], EP.ready⟩ :=
    Reachable.step h4 (Step.seeEmpty _ 0 rfl rfl)
  have h6 : Reachable ⟨[1], true, [WP.clearing], EP.spawnCheck⟩ :=
    Reachable.step h5 (Step.put _ 1 rfl)
  have h7 : Reachable ⟨[1], true, [WP.clearing], EP.ready⟩ :=
    Reachable.step h6 (Step.spawnNo _ rfl rfl)
  exact Reachable.step h7 (Step.clearFlag _ 0 rfl)

/-- Claim C2 (confirmed): in every reachable state of one session's pipeline,
under every interleaving of chunk arrivals and worker scheduling, at most one
drain worker thread is alive and at most one blocking generate invocation is
in flight; the processing busy flag enforces the at-most-one-worker
discipline. -/
theorem at_most_one_worker (s : SSt) (h : Reachable s) :
    s.workers.length ≤ 1 ∧ (s.workers.filter WP.isGenerating).length ≤ 1 :=
  ⟨(reachable_worker_inv s h).2,
   le_trans (List.length_filter_le _ _) (reachable_worker_inv s h).2⟩

/-- Witness for at_most_one_worker at a concrete reachable state holding one
freshly spawned worker. -/
theorem at_most_one_worker_witness :
    (SSt.mk [0] true [WP.checking] EP.ready).workers.length ≤ 1 ∧
    ((SSt.mk [0] true [WP.checking] EP.ready).workers.filter WP.isGenerating).length ≤ 1 :=
  at_most_one_worker ⟨[0], true, [WP.checking], EP.ready⟩
    (Reachable.step
      (Reachable.step Reachable.init (Step.put initSt 0 rfl))
      (Step.spawnYes _ rfl rfl))

/-- Claim C3 (code_bug evaluation): the claim states that N enqueued chunks
yield N video_chunk or error events delivered in arrival order. The worker
pops chunks in FIFO order, but every delivery goes through asyncio.create_task
from the worker thread, which has no running event loop: for three chunks
whose generations all succeed, zero events are scheduled for delivery (the
first delivery attempt raises, the except handler's own delivery attempt
raises again and kills the worker), instead of the three ordered video_chunk
events the claim requires. Run from the event-loop thread, the same loop would
deliver the three events in exactly arrival order. -/
theorem drain_delivers_no_events :
    drainQueue workerCtx (fun _ => true) (fun b => b.b64) (fun _ => 0)
      [⟨"YQ=="⟩, ⟨"Yg=="⟩, ⟨"Yw=="⟩] = [] ∧
    drainQueue ExecCtx.eventLoopThread (fun _ => true) (fun b => b.b64) (fun _ => 0)
      [⟨"YQ=="⟩, ⟨"Yg=="⟩, ⟨"Yw=="⟩] =
      [OutEvent.videoChunk "YQ==" 0, OutEvent.videoChunk "Yg==" 0,
       OutEvent.videoChunk "Yw==" 0] :=
  ⟨rfl, rfl⟩

/-- Claim C4 (code_bug evaluation): the claim states that a successful
generation leads to exactly one video_chunk event handed safely from the
worker context to the event loop. The worker runs in a threading.Thread with
no running event loop, so its asyncio.create_task call raises RuntimeError:
no video_chunk is scheduled and the worker loop dies. The identical call from
the event-loop thread would schedule exactly the one video_chunk event,
showing the divergence is precisely the unsafe cross-thread handoff. -/
theorem video_chunk_delivery_lost :
    workerIteration workerCtx true "QUJD" 7 = ([], false) ∧
    workerIteration ExecCtx.eventLoopThread true "QUJD" 7 =
      ([OutEvent.videoChunk "QUJD" 7], true) :=
  ⟨rfl, rfl⟩

/-- Claim C5 counterexample: after a second successful initialization binds
avatar_new for client_1, the previously bound avatar_old is still registered
in the avatar table with its temporary directory intact - it was never
released, refuting "the previously bound avatar resource is released before
the new binding is stored". -/
theorem rebind_keeps_old_avatar :
    dictGet (bindAvatarOnSuccess stBound "client_1" "avatar_new" wNew).avatars
      "avatar_old" = some wOld ∧
    wOld.tempDirExists = true ∧
    (dictGet (bindAvatarOnSuccess stBound "client_1" "avatar_new" wNew).clients
      "client_1").map ClientInfo.avatarId = some (some "avatar_new") := by
  decide

/-- Claim C5 (amended): a subsequent successful avatar initialization
overwrites the client's binding with the new avatar id and registers the new
wrapper, but the previously bound avatar resource is NOT released: its entry
in the avatar table is left exactly as it was. -/
theorem rebind_overwrites_without_release (st : ServerState)
    (cid oldAid newAid : String) (w : Wrapper) (c : ClientInfo)
    (hc : dictGet st.clients cid = some c) (_hold : c.avatarId = some oldAid)
    (hne : oldAid ≠ newAid) :
    (dictGet (bindAvatarOnSuccess st cid newAid w).clients cid).map
        ClientInfo.avatarId = some (some newAid) ∧
    dictGet (bindAvatarOnSuccess st cid newAid w).avatars newAid = some w ∧
    dictGet (bindAvatarOnSuccess st cid newAid w).avatars oldAid =
      dictGet st.avatars oldAid := by
  simp [bindAvatarOnSuccess, hc, dictGet_set_self, dictGet_set_ne _ _ _ _ hne]

/-- Witness for rebind_overwrites_without_release on the concrete bound
state. -/
theorem rebind_overwrites_without_release_witness :
    (dictGet (bindAvatarOnSuccess stBound "client_1" "avatar_new" wNew).clients
        "client_1").map ClientInfo.avatarId = some (some "avatar_new") ∧
    dictGet (bindAvatarOnSuccess stBound "client_1" "avatar_new" wNew).avatars
      "avatar_new" = some wNew ∧
    dictGet (bindAvatarOnSuccess stBound "client_1" "avatar_new" wNew).avatars
      "avatar_old" = dictGet stBound.avatars "avatar_old" :=
  rebind_overwrites_without_release stBound "client_1" "avatar_old" "avatar_new"
    wNew ⟨some "avatar_old", [], false⟩ rfl rfl (by decide)

/-- Claim C6 counterexample: two connection establishments in the same wall
clock millisecond receive the identical session id, and the second
registration overwrites the first client's registry entry, leaving a single
entry - refuting process-lifetime uniqueness of session ids. -/
theorem same_millisecond_id_collision :
    (registerClient (registerClient ⟨[], []⟩ 42).1 42).2.1 =
      (registerClient ⟨[], []⟩ 42).2.1 ∧
    (registerClient (registerClient ⟨[], []⟩ 42).1 42).1.clients.length = 1 := by
  decide

/-- Claim C6 (amended): session ids generated at distinct millisecond
timestamps are distinct; only connections arriving within the same
millisecond collide. -/
theorem client_ids_distinct_timestamps (ms1 ms2 : Nat) (h : ms1 ≠ ms2) :
    mkClientId ms1 ≠ mkClientId ms2 := by
  intro he
  apply h
  rw [← idVal_mkClientId ms1, ← idVal_mkClientId ms2, he]

/-- Witness for client_ids_distinct_timestamps at timestamps 1 and 2. -/
theorem client_ids_distinct_timestamps_witness :
    mkClientId 1 ≠ mkClientId 2 :=
  client_ids_distinct_timestamps 1 2 (by decide)

/-- Claim C7 counterexample: a request carrying BOTH avatar_video_data and
avatar_video_path is not rejected - no error event is emitted and the
initialization proceeds (using the decoded avatar_video_data, written to the
temporary file), refuting "exactly one of the two video fields is required". -/
theorem both_video_fields_accepted :
    (handleInitializeAvatar "client_1" 0 (some "QUJD") (some "vid.mp4")
        (fun _ => true) "/tmp/t.mp4").1 = InitOutcome.started true "/tmp/t.mp4" ∧
    ((handleInitializeAvatar "client_1" 0 (some "QUJD") (some "vid.mp4")
        (fun _ => true) "/tmp/t.mp4").2.any OutEvent.isError) = false := by
  decide

/-- Claim C7 (amended): at least one of the two video fields is required: a
request with neither field yields a single error event and no avatar is
created; a request carrying a truthy avatar_video_data proceeds to
initialization using the just-written temporary file regardless of
avatar_video_path (data takes precedence); a request with only a truthy
avatar_video_path proceeds using that path. -/
theorem init_avatar_field_validation (cid : String) (sec : Nat)
    (avd avp : Option String) (fs : String → Bool) (tp : String) :
    (truthy avd = false → truthy avp = false →
      handleInitializeAvatar cid sec avd avp fs tp =
        (InitOutcome.rejectedMissing,
         [OutEvent.errorEv
            "Either avatar_video_data or avatar_video_path must be provided"])) ∧
    (truthy avd = true → fs tp = true →
      (handleInitializeAvatar cid sec avd avp fs tp).1 =
        InitOutcome.started true tp) ∧
    (truthy avd = false → truthy avp = true → fs (avp.getD "") = true →
      (handleInitializeAvatar cid sec avd avp fs tp).1 =
        InitOutcome.started false (avp.getD "")) := by
  refine ⟨fun h1 h2 => ?_, fun h1 h2 => ?_, fun h1 h2 h3 => ?_⟩
  · simp [handleInitializeAvatar, h1, h2]
  · simp [handleInitializeAvatar, h1, h2]
  · simp [handleInitializeAvatar, h1, h2, h3]

/-- Witness for init_avatar_field_validation: the both-fields request
proceeds with the video data. -/
theorem init_avatar_field_validation_witness :
    (handleInitializeAvatar "client_1" 0 (some "QUJD") (some "vid.mp4")
        (fun _ => true) "/tmp/t2.mp4").1 = InitOutcome.started true "/tmp/t2.mp4" :=
  (init_avatar_field_validation "client_1" 0 (some "QUJD") (some "vid.mp4")
    (fun _ => true) "/tmp/t2.mp4").2.1 rfl rfl

/-- Claim C8 (confirmed): an audio_chunk arriving for an existing session
before any successful avatar initialization (avatar_id still None) yields
exactly one error event, leaves the server state - in particular the
session's audio queue and busy flag - untouched, and spawns no drain worker. -/
theorem audio_before_init_single_error (st : ServerState) (cid : String)
    (aud : Option String) (c : ClientInfo)
    (hc : dictGet st.clients cid = some c) (hno : c.avatarId = none) :
    handleAudioChunk st cid aud =
      (st, [OutEvent.errorEv "Avatar not initialized"], false) := by
  simp [handleAudioChunk, hc, hno]

/-- Witness for audio_before_init_single_error on the concrete
never-initialized client state. -/
theorem audio_before_init_single_error_witness :
    handleAudioChunk stNoAvatar "client_1" (some "UXc=") =
      (stNoAvatar, [OutEvent.errorEv "Avatar not initialized"], false) :=
  audio_before_init_single_error stNoAvatar "client_1" (some "UXc=")
    ⟨none, [], false⟩ rfl rfl

/-- Claim C9 (confirmed): a malformed inbound message, or one whose type is
missing or not in the dispatch table, makes handle_message return normally
(the source catches json.JSONDecodeError and every other exception, so the
connection is never crashed or closed) with exactly one typed error event,
an unchanged server state - hence every subsequent message is handled exactly
as before - and no worker spawned. -/
theorem unhandled_message_single_error (st : ServerState) (cid : String)
    (m : Inbound) (fs : String → Bool) (tp : String) (sec : Nat)
    (h : m.unhandled) :
    (handleMessage st cid m fs tp sec).1 = st ∧
    (handleMessage st cid m fs tp sec).2.1.length = 1 ∧
    ((handleMessage st cid m fs tp sec).2.1.all OutEvent.isError) = true ∧
    (handleMessage st cid m fs tp sec).2.2 = false := by
  cases m with
  | malformed => exact ⟨rfl, rfl, rfl, rfl⟩
  | tagged t avd avp ver aud =>
    unfold Inbound.unhandled knownKind at h
    push_neg at h
    obtain ⟨h1, h2, h3⟩ := h
    simp [handleMessage, h1, h2, h3, OutEvent.isError]

/-- Witness for unhandled_message_single_error on a message of unknown type
"bogus". -/
theorem unhandled_message_single_error_witness :
    (handleMessage stNoAvatar "client_1"
        (Inbound.tagged (some "bogus") none none none none)
        (fun _ => false) "/tmp/t.mp4" 0).1 = stNoAvatar ∧
    (handleMessage stNoAvatar "client_1"
        (Inbound.tagged (some "bogus") none none none none)
        (fun _ => false) "/tmp/t.mp4" 0).2.1.length = 1 ∧
    ((handleMessage stNoAvatar "client_1"
        (Inbound.tagged (some "bogus") none none none none)
        (fun _ => false) "/tmp/t.mp4" 0).2.1.all OutEvent.isError) = true ∧
    (handleMessage stNoAvatar "client_1"
        (Inbound.tagged (some "bogus") none none none none)
        (fun _ => false) "/tmp/t.mp4" 0).2.2 = false :=
  unhandled_message_single_error stNoAvatar "client_1"
    (Inbound.tagged (some "bogus") none none none none)
    (fun _ => false) "/tmp/t.mp4" 0 (by decide)

/-- Claim C10 (confirmed): session destruction is idempotent. cleanup_client
never emits an event (and, all exceptions being caught, never raises); after
it runs the registry entry is gone; running it a second time is a no-op that
changes neither table and releases nothing; when an avatar was bound its
wrapper's cleanup() is invoked (temp dir purged, itself idempotent) and its
table entry removed; for a never-initialized session the avatar table is left
untouched and nothing is released. -/
theorem cleanup_idempotent (st : ServerState) (cid : String) :
    (cleanupClient st cid).events = [] ∧
    dictGet (cleanupClient st cid).state.clients cid = none ∧
    cleanupClient (cleanupClient st cid).state cid =
      ⟨(cleanupClient st cid).state, [], []⟩ ∧
    (∀ w : Wrapper, (w.cleanup).cleanup = w.cleanup) ∧
    (∀ c, dictGet st.clients cid = some c → ∀ aid, c.avatarId = some aid →
      ∀ w, dictGet st.avatars aid = some w →
        (cleanupClient st cid).released = [w.cleanup] ∧
        dictGet (cleanupClient st cid).state.avatars aid = none) ∧
    (∀ c, dictGet st.clients cid = some c → c.avatarId = none →
      (cleanupClient st cid).state.avatars = st.avatars ∧
      (cleanupClient st cid).released = []) := by
  rcases hcl : dictGet st.clients cid with _ | c
  · have he : cleanupClient st cid = ⟨st, [], []⟩ :=
      cleanupClient_not_found st cid hcl
    rw [he]
    refine ⟨rfl, hcl, he, fun w => rfl, ?_, ?_⟩
    · intro c' hc'
      simp at hc'
    · intro c' hc'
      simp at hc'
  · rcases hav : c.avatarId with _ | aid
    · have he : cleanupClient st cid =
          ⟨{ st with clients := dictDel st.clients cid }, [], []⟩ := by
        simp [cleanupClient, hcl, hav]
      refine ⟨by rw [he], ?_, ?_, fun w => rfl, ?_, ?_⟩
      · rw [he]
        exact dictGet_del_self st.clients cid
      · rw [he]
        exact cleanupClient_not_found _ cid (dictGet_del_self st.clients cid)
      · intro c' hc' aid hcaid w hw
        injection hc' with hc'
        subst hc'
        rw [hav] at hcaid
        simp at hcaid
      · intro c' hc' hnone
        rw [he]
        exact ⟨rfl, rfl⟩
    · rcases haw : dictGet st.avatars aid with _ | w
      · have he : cleanupClient st cid =
            ⟨{ st with clients := dictDel st.clients cid }, [], []⟩ := by
          simp [cleanupClient, hcl, hav, haw]
        refine ⟨by rw [he], ?_, ?_, fun w => rfl, ?_, ?_⟩
        · rw [he]
          exact dictGet_del_self st.clients cid
        · rw [he]
          exact cleanupClient_not_found _ cid (dictGet_del_self st.clients cid)
        · intro c' hc' aid' hcaid w hw
          injection hc' with hc'
          subst hc'
          rw [hav] at hcaid
          injection hcaid with hcaid
          subst hcaid
          rw [haw] at hw
          simp at hw
        · intro c' hc' hnone
          injection hc' with hc'
          subst hc'
          rw [hav] at hnone
          simp at hnone
      · have he : cleanupClient st cid =
            ⟨⟨dictDel st.clients cid, dictDel st.avatars aid⟩, [], [w.cleanup]⟩ := by
          simp [cleanupClient, hcl, hav, haw]
        refine ⟨by rw [he], ?_, ?_, fun w' => rfl, ?_, ?_⟩
        · rw [he]
          exact dictGet_del_self st.clients cid
        · rw [he]
          exact cleanupClient_not_found _ cid (dictGet_del_self st.clients cid)
        · intro c' hc' aid' hcaid w' hw'
          injection hc' with hc'
          subst hc'
          rw [hav] at hcaid
          injection hcaid with hcaid
          subst hcaid
          rw [haw] at hw'
          injection hw' with hw'
          subst hw'
          rw [he]
          exact ⟨rfl, dictGet_del_self st.avatars aid⟩
        · intro c' hc' hnone
          injection hc' with hc'
          subst hc'
          rw [hav] at hnone
          simp at hnone

/-- Witness for cleanup_idempotent: destroying the concrete bound session
releases its wrapper (cleanup() invoked) and removes the avatar entry. -/
theorem cleanup_idempotent_witness :
    (cleanupClient stBound "client_1").released = [wOld.cleanup] ∧
    dictGet (cleanupClient stBound "client_1").state.avatars "avatar_old" = none :=
  (cleanup_idempotent stBound "client_1").2.2.2.2.1
    ⟨some "avatar_old", [], false⟩ rfl "avatar_old" rfl wOld rfl
